import Mathlib

/-!
Shallow embedding of the PicoLightController firmware (src/main.py together
with src/config.py) and proofs about its documented behaviour.

Modelling conventions:
* Python integers are `Int` (or `Nat` where the source value is a byte or a
  count); Python float arithmetic inside `fade_to` is modelled with exact
  rational arithmetic (`Rat`), with `int(x)` rendered as truncation toward
  zero (`pyTrunc`).
* Stateful methods become explicit state-passing functions returning the new
  state together with the observable traces (actuator writes, sleeps, BLE
  notifications, radio calls) the source performs.
* File-system and radio effects are oracles: a `Bool` for a write succeeding,
  an outcome type for the advertising call, an inductive for the state of the
  settings file.  All exception handlers in the source are total branches of
  the corresponding Lean functions.
-/

namespace PicoLight

/-! ### Configuration constants (src/config.py) -/

def LIGHTS_ON_TIME : String := "10:50"

def LIGHTS_OFF_TIME : String := "20:00"

def ACTIVE_RECIPE : String := "veg_growth"

def FADE_DURATION : ℚ := 5

def FADE_STEPS_PER_SECOND : ℕ := 25

def BT_AUTO_CYCLE : Bool := true

def MIN_MEM_ADV : ℕ := 15000

/-- An RGBW color: a Python 4-tuple of integers. -/
abbrev Color := ℤ × ℤ × ℤ × ℤ

/-- config.LIGHT_RECIPES, in source order. -/
def LIGHT_RECIPES : List (String × Color) :=
  [("balanced", (255, 64, 128, 255)), ("warm", (255, 140, 20, 255)),
   ("cool", (180, 200, 255, 255)), ("daylight", (255, 230, 210, 255)),
   ("veg_growth", (50, 255, 70, 200)), ("bloom", (255, 100, 10, 150)),
   ("seedling", (100, 100, 200, 150)), ("succulent", (220, 180, 40, 200)),
   ("purple_glow", (180, 0, 255, 0)), ("sunrise", (255, 50, 20, 100)),
   ("sunset", (255, 30, 0, 50)), ("forest", (30, 200, 30, 120)),
   ("aquarium", (0, 200, 255, 50)), ("night_light", (50, 20, 0, 30)),
   ("inspection", (255, 255, 255, 255)), ("off", (0, 0, 0, 0))]

/-- config.RECIPE_KEYS, in source order. -/
def RECIPE_KEYS : List String :=
  ["balanced", "warm", "cool", "daylight", "veg_growth", "bloom", "seedling",
   "succulent", "purple_glow", "sunrise", "sunset", "forest", "aquarium",
   "night_light", "inspection", "off"]

/-! ### is_time_between (src/main.py lines 303-315) -/

/-- Source function `is_time_between(current_hm_tuple, start_hm_tuple,
end_hm_tuple)`: membership of the current (hour, minute) in the half-open
interval from start to end, wrapping past midnight when start > end. -/
def is_time_between (current_hm start_hm end_hm : ℕ × ℕ) : Bool :=
  let current_mins := current_hm.1 * 60 + current_hm.2
  let start_mins := start_hm.1 * 60 + start_hm.2
  let end_mins := end_hm.1 * 60 + end_hm.2
  if start_mins ≤ end_mins then
    decide (start_mins ≤ current_mins ∧ current_mins < end_mins)
  else
    decide (current_mins ≥ start_mins ∨ current_mins < end_mins)

/-- C1: for every current, start and end (hour, minute) pair, is_time_between
returns true exactly when the current minute-of-day lies in the half-open
interval from start to end: when start_minutes ≤ end_minutes it returns
(start ≤ now < end), and when start_minutes > end_minutes (wrapping past
midnight) it returns (now ≥ start or now < end).  In particular the interval
1380..60 (23:00 to 01:00) contains now = 1439 (23:59) and now = 30 (00:30)
but not now = 700 (11:40). -/
theorem is_time_between_spec :
    (∀ ch cm sh sm eh em : ℕ,
      (is_time_between (ch, cm) (sh, sm) (eh, em) = true ↔
        (if sh * 60 + sm ≤ eh * 60 + em then
          sh * 60 + sm ≤ ch * 60 + cm ∧ ch * 60 + cm < eh * 60 + em
         else
          ch * 60 + cm ≥ sh * 60 + sm ∨ ch * 60 + cm < eh * 60 + em)))
    ∧ is_time_between (23, 59) (23, 0) (1, 0) = true
    ∧ is_time_between (0, 30) (23, 0) (1, 0) = true
    ∧ is_time_between (11, 40) (23, 0) (1, 0) = false := by
  refine ⟨?_, by decide, by decide, by decide⟩
  intro ch cm sh sm eh em
  unfold is_time_between
  by_cases h : sh * 60 + sm ≤ eh * 60 + em
  · simp [h]
  · simp [h]

/-! ### LightController (src/main.py lines 370-528) -/

/-- Clamp one channel to the byte range, as the source writes
`max(0, min(255, int(c)))`. -/
def clampChan (x : ℤ) : ℤ := max 0 (min 255 x)

/-- Clamp all four channels of a color independently. -/
def clamp4 (c : Color) : Color :=
  (clampChan c.1, clampChan c.2.1, clampChan c.2.2.1, clampChan c.2.2.2)

/-- Python `int()` applied to a rational: truncation toward zero. -/
def pyTrunc (q : ℚ) : ℤ := if q < 0 then ⌈q⌉ else ⌊q⌋

/-- The reverse catalog match of `set_all`: the first recipe whose color
equals the target, else the pseudo-name "custom". -/
def recipeNameFor (c : Color) : String :=
  match LIGHT_RECIPES.find? (fun p => decide (p.2 = c)) with
  | some p => p.1
  | none => "custom"

/-- The mutable fields of class LightController.  The cached tuple is an
`Option`: `none` stands for a cached value that is not a 4-tuple (the
corrupted-state case that `get_current_rgbw` repairs). -/
structure LightState where
  current_recipe_tuple : Option Color
  current_recipe_name : String
  auto_cycle_enabled : Bool
deriving DecidableEq, Repr

/-- LightController.__init__: cached color is the off recipe, name "off",
auto-cycle from config.BT_AUTO_CYCLE. -/
def lightInit : LightState :=
  { current_recipe_tuple := some ((LIGHT_RECIPES.lookup "off").getD (0, 0, 0, 0))
    current_recipe_name := "off"
    auto_cycle_enabled := BT_AUTO_CYCLE }

/-- LightController.set_all: clamp each channel, return early when the target
equals the cached color, else write once to the strip and update the cache
(with the reverse catalog name match).  The second component is the list of
committed actuator writes. -/
def set_all (st : LightState) (r g b w : ℤ) : LightState × List Color :=
  let target := (clampChan r, clampChan g, clampChan b, clampChan w)
  if st.current_recipe_tuple = some target then (st, [])
  else
    ({ st with current_recipe_tuple := some target
               current_recipe_name := recipeNameFor target }, [target])

/-- LightController.get_current_rgbw: return the cached tuple; a cached value
that is not a 4-tuple is repaired to the off color (and name) first. -/
def get_current_rgbw (st : LightState) : Color × LightState :=
  match st.current_recipe_tuple with
  | some c => (c, st)
  | none =>
      let offc := (LIGHT_RECIPES.lookup "off").getD (0, 0, 0, 0)
      (offc, { st with current_recipe_tuple := some offc
                       current_recipe_name := "off" })

/-- One interpolated channel value of a fade step, as the source computes it:
`delta = (t - s) / num_steps` once, then `int(s + delta * step + 0.5)`
clamped to the byte range. -/
def fadeChan (s t : ℤ) (n i : ℕ) : ℤ :=
  let delta : ℚ := ((t : ℚ) - (s : ℚ)) / (n : ℚ)
  clampChan (pyTrunc ((s : ℚ) + delta * (i : ℚ) + 1 / 2))

/-- All four channels of one fade step. -/
def fadeColor (s t : Color) (n i : ℕ) : Color :=
  (fadeChan s.1 t.1 n i, fadeChan s.2.1 t.2.1 n i,
   fadeChan s.2.2.1 t.2.2.1 n i, fadeChan s.2.2.2 t.2.2.2 n i)

/-- LightController.fade_to for a proper 4-tuple-of-integers target (so the
isinstance and int() guards of the source always pass).  `durOpt = none`
models the `duration_sec=None` default, replaced by config.FADE_DURATION.
Returns the new state, the list of actuator commits, and the list of sleep
durations in milliseconds.  The gc.collect every 50 steps and the watchdog
feeds have no observable effect in this model and are omitted. -/
def fade_to (st : LightState) (target : Color) (durOpt : Option ℚ) :
    LightState × List Color × List ℕ :=
  let duration := durOpt.getD FADE_DURATION
  let t := clamp4 target
  let p := get_current_rgbw st
  let start := p.1
  let st1 := p.2
  if start = t then
    let q := set_all st1 t.1 t.2.1 t.2.2.1 t.2.2.2
    (q.1, q.2, [])
  else if duration < 1 / 20 then
    let q := set_all st1 t.1 t.2.1 t.2.2.1 t.2.2.2
    (q.1, q.2, [])
  else
    let num_steps := max 1 (pyTrunc (duration * (FADE_STEPS_PER_SECOND : ℚ))).toNat
    let step_ms := max 1 (pyTrunc (duration / (num_steps : ℚ) * 1000)).toNat
    let writes := (List.range (num_steps + 1)).map (fun i => fadeColor start t num_steps i)
    let q := set_all st1 t.1 t.2.1 t.2.2.1 t.2.2.2
    (q.1, writes ++ q.2, List.replicate num_steps step_ms)

/-- LightController.set_recipe_by_name: fade to the named recipe and return
true, or fade to the off color and return false when the name is unknown. -/
def set_recipe_by_name (st : LightState) (name : String) (durOpt : Option ℚ) :
    Bool × LightState × List Color × List ℕ :=
  match LIGHT_RECIPES.lookup name with
  | some t =>
      let q := fade_to st t durOpt
      (true, q)
  | none =>
      let q := fade_to st ((LIGHT_RECIPES.lookup "off").getD (0, 0, 0, 0)) durOpt
      (false, q)

/-- LightController.set_recipe_by_index: look the index up in
config.RECIPE_KEYS; an out-of-range index fades to the off color and returns
false. -/
def set_recipe_by_index (st : LightState) (idx : ℕ) (durOpt : Option ℚ) :
    Bool × LightState × List Color × List ℕ :=
  if h : idx < RECIPE_KEYS.length then
    set_recipe_by_name st (RECIPE_KEYS.get ⟨idx, h⟩) durOpt
  else
    let q := fade_to st ((LIGHT_RECIPES.lookup "off").getD (0, 0, 0, 0)) durOpt
    (false, q)

/-- LightController.set_custom_rgbw for integer inputs (for which the int()
conversions of the source cannot fail): fade to the color, return true. -/
def set_custom_rgbw (st : LightState) (r g b w : ℤ) (durOpt : Option ℚ) :
    Bool × LightState × List Color × List ℕ :=
  let q := fade_to st (r, g, b, w) durOpt
  (true, q)

/-- LightController.toggle_auto_cycle. -/
def toggle_auto_cycle (st : LightState) : Bool × LightState :=
  (!st.auto_cycle_enabled, { st with auto_cycle_enabled := !st.auto_cycle_enabled })

/-! ### Well-formedness of the cached light state -/

/-- A channel value lies in the byte range. -/
def chanOK (x : ℤ) : Bool := decide (0 ≤ x ∧ x ≤ 255)

/-- All four channels lie in the byte range. -/
def colorOK (c : Color) : Bool :=
  chanOK c.1 && chanOK c.2.1 && chanOK c.2.2.1 && chanOK c.2.2.2

/-- Well-formed cached state: the cached color is a genuine 4-tuple of
integers in the byte range, and the cached name is either a catalog key
carrying exactly that color or the pseudo-name "custom". -/
def lightWF (st : LightState) : Bool :=
  match st.current_recipe_tuple with
  | none => false
  | some c =>
      colorOK c &&
        (st.current_recipe_name == "custom" ||
          decide ((st.current_recipe_name, c) ∈ LIGHT_RECIPES))

lemma clampChan_mem (x : ℤ) : 0 ≤ clampChan x ∧ clampChan x ≤ 255 := by
  unfold clampChan; omega

lemma clampChan_eq_self {x : ℤ} (h0 : 0 ≤ x) (h1 : x ≤ 255) : clampChan x = x := by
  unfold clampChan; omega

lemma clamp4_idem (c : Color) : clamp4 (clamp4 c) = clamp4 c := by
  unfold clamp4
  have h1 := clampChan_mem c.1
  have h2 := clampChan_mem c.2.1
  have h3 := clampChan_mem c.2.2.1
  have h4 := clampChan_mem c.2.2.2
  simp [clampChan_eq_self h1.1 h1.2, clampChan_eq_self h2.1 h2.2,
        clampChan_eq_self h3.1 h3.2, clampChan_eq_self h4.1 h4.2]

lemma clamp4_colorOK (c : Color) : colorOK (clamp4 c) = true := by
  unfold colorOK clamp4 chanOK
  have h1 := clampChan_mem c.1
  have h2 := clampChan_mem c.2.1
  have h3 := clampChan_mem c.2.2.1
  have h4 := clampChan_mem c.2.2.2
  simp only [Bool.and_eq_true, decide_eq_true_iff]
  exact ⟨⟨⟨h1, h2⟩, h3⟩, h4⟩

lemma clamp4_of_colorOK {c : Color} (h : colorOK c = true) : clamp4 c = c := by
  unfold colorOK chanOK at h
  simp only [Bool.and_eq_true, decide_eq_true_iff] at h
  obtain ⟨⟨⟨h1, h2⟩, h3⟩, h4⟩ := h
  unfold clamp4
  rw [clampChan_eq_self h1.1 h1.2, clampChan_eq_self h2.1 h2.2,
      clampChan_eq_self h3.1 h3.2, clampChan_eq_self h4.1 h4.2]

lemma recipeNameFor_mem (c : Color) :
    recipeNameFor c = "custom" ∨ (recipeNameFor c, c) ∈ LIGHT_RECIPES := by
  unfold recipeNameFor
  cases h : LIGHT_RECIPES.find? (fun p => decide (p.2 = c)) with
  | none => exact Or.inl rfl
  | some p =>
      right
      have hp := List.find?_some (p := fun q : String × Color => decide (q.2 = c)) h
      have hm : p ∈ LIGHT_RECIPES := List.mem_of_find?_eq_some h
      simp only [decide_eq_true_iff] at hp
      simpa [← hp] using hm

lemma set_all_current (st : LightState) (r g b w : ℤ) :
    (set_all st r g b w).1.current_recipe_tuple = some (clamp4 (r, g, b, w)) := by
  unfold set_all
  dsimp only
  split_ifs with h
  · exact h
  · rfl

lemma set_all_auto (st : LightState) (r g b w : ℤ) :
    (set_all st r g b w).1.auto_cycle_enabled = st.auto_cycle_enabled := by
  unfold set_all
  dsimp only
  split_ifs <;> rfl

lemma set_all_wf (st : LightState) (r g b w : ℤ) (h : lightWF st = true) :
    lightWF (set_all st r g b w).1 = true := by
  unfold set_all
  dsimp only
  split_ifs with hc
  · exact h
  · unfold lightWF
    simp only [Bool.and_eq_true, Bool.or_eq_true, beq_iff_eq, decide_eq_true_iff]
    refine ⟨clamp4_colorOK (r, g, b, w), ?_⟩
    rcases recipeNameFor_mem (clampChan r, clampChan g, clampChan b, clampChan w) with hn | hn
    · exact Or.inl hn
    · exact Or.inr hn

lemma get_current_rgbw_of_some {st : LightState} {c : Color}
    (h : st.current_recipe_tuple = some c) : get_current_rgbw st = (c, st) := by
  unfold get_current_rgbw
  rw [h]

lemma get_current_rgbw_wf (st : LightState) (h : lightWF st = true) :
    (get_current_rgbw st).2 = st ∧ lightWF (get_current_rgbw st).2 = true := by
  unfold lightWF at h
  cases hc : st.current_recipe_tuple with
  | none => rw [hc] at h; exact absurd h (by simp)
  | some c => rw [get_current_rgbw_of_some hc]; exact ⟨rfl, h⟩

lemma fade_to_current (st : LightState) (target : Color) (d : Option ℚ) :
    (fade_to st target d).1.current_recipe_tuple = some (clamp4 target) := by
  have key : ∀ st1 : LightState,
      (set_all st1 (clamp4 target).1 (clamp4 target).2.1 (clamp4 target).2.2.1
        (clamp4 target).2.2.2).1.current_recipe_tuple = some (clamp4 target) := by
    intro st1
    rw [set_all_current]
    exact congrArg some (clamp4_idem target)
  unfold fade_to
  dsimp only
  split_ifs <;> exact key _

lemma fade_to_auto (st : LightState) (target : Color) (d : Option ℚ) :
    (fade_to st target d).1.auto_cycle_enabled = st.auto_cycle_enabled := by
  have hget : (get_current_rgbw st).2.auto_cycle_enabled = st.auto_cycle_enabled := by
    unfold get_current_rgbw
    cases st.current_recipe_tuple <;> rfl
  unfold fade_to
  dsimp only
  split_ifs <;> rw [set_all_auto] <;> exact hget

lemma fade_to_wf (st : LightState) (target : Color) (d : Option ℚ)
    (h : lightWF st = true) : lightWF (fade_to st target d).1 = true := by
  have h1 := (get_current_rgbw_wf st h).2
  unfold fade_to
  dsimp only
  split_ifs <;> exact set_all_wf _ _ _ _ _ h1

lemma set_all_writes_of_ne (st : LightState) (r g b w : ℤ)
    (h : st.current_recipe_tuple ≠ some (clamp4 (r, g, b, w))) :
    (set_all st r g b w).2 = [clamp4 (r, g, b, w)] := by
  unfold set_all
  dsimp only
  rw [if_neg (show st.current_recipe_tuple ≠
        some (clampChan r, clampChan g, clampChan b, clampChan w) from h)]
  rfl

lemma set_recipe_by_name_wf (st : LightState) (n : String) (d : Option ℚ)
    (h : lightWF st = true) : lightWF (set_recipe_by_name st n d).2.1 = true := by
  unfold set_recipe_by_name
  cases LIGHT_RECIPES.lookup n <;> exact fade_to_wf _ _ _ h

lemma set_recipe_by_index_wf (st : LightState) (i : ℕ) (d : Option ℚ)
    (h : lightWF st = true) : lightWF (set_recipe_by_index st i d).2.1 = true := by
  unfold set_recipe_by_index
  split_ifs
  · exact set_recipe_by_name_wf _ _ _ h
  · exact fade_to_wf _ _ _ h

lemma set_custom_rgbw_wf (st : LightState) (r g b w : ℤ) (d : Option ℚ)
    (h : lightWF st = true) : lightWF (set_custom_rgbw st r g b w d).2.1 = true :=
  fade_to_wf _ _ _ h

/-- C7: fading to the cached current color is a no-op on the actuator: for a
well-formed cached color (each channel an integer in 0..255), fade_to of that
very color returns at the initial no-op check of set_all with no actuator
writes, no sleeps, and the state unchanged. -/
theorem fade_to_noop (st : LightState) (c : Color) (d : Option ℚ)
    (hcur : st.current_recipe_tuple = some c) (hok : colorOK c = true) :
    fade_to st c d = (st, [], []) := by
  have hcl : clamp4 c = c := clamp4_of_colorOK hok
  have hset : set_all st c.1 c.2.1 c.2.2.1 c.2.2.2 = (st, []) := by
    unfold set_all
    dsimp only
    have hc4 : (clampChan c.1, clampChan c.2.1, clampChan c.2.2.1, clampChan c.2.2.2) = c := hcl
    rw [hc4, if_pos hcur]
  unfold fade_to
  rw [get_current_rgbw_of_some hcur]
  dsimp only
  rw [hcl, if_pos rfl, hset]

/-- Witness for fade_to_noop at the boot state and the off color. -/
theorem fade_to_noop_witness :
    lightInit.current_recipe_tuple = some (0, 0, 0, 0)
    ∧ colorOK (0, 0, 0, 0) = true
    ∧ fade_to lightInit (0, 0, 0, 0) (some 5) = (lightInit, [], []) :=
  ⟨by decide, by decide, fade_to_noop lightInit (0, 0, 0, 0) (some 5) (by decide) (by decide)⟩

/-- C8: every target color passed to fade_to or set_all has each channel
independently clamped to 0..255 before being applied: the cached color after
the call is always the clamped target, and in particular the out-of-range
target (300, -10, 255, 256) becomes (255, 0, 255, 255). -/
theorem fade_to_clamping :
    (∀ (st : LightState) (c : Color) (d : Option ℚ),
      (fade_to st c d).1.current_recipe_tuple = some (clamp4 c))
    ∧ (∀ (st : LightState) (r g b w : ℤ),
      (set_all st r g b w).1.current_recipe_tuple = some (clamp4 (r, g, b, w)))
    ∧ (∀ c : Color,
      clamp4 c = (clampChan c.1, clampChan c.2.1, clampChan c.2.2.1, clampChan c.2.2.2))
    ∧ clamp4 (300, -10, 255, 256) = (255, 0, 255, 255)
    ∧ (fade_to ⟨some (0, 0, 0, 0), "off", true⟩ (300, -10, 255, 256)
        none).1.current_recipe_tuple = some (255, 0, 255, 255) := by
  refine ⟨fade_to_current, set_all_current, fun _ => rfl, by decide, ?_⟩
  rw [fade_to_current]
  decide

/-- C9: every LightController operation keeps the cached state well-formed
(the cached color is a 4-tuple of integers in 0..255 and the cached name is a
catalog key with that color or the pseudo-name "custom"), and
get_current_rgbw repairs a corrupted cache to the off color before
returning. -/
theorem light_controller_invariant :
    lightWF lightInit = true
    ∧ (∀ (st : LightState) (r g b w : ℤ),
        lightWF st = true → lightWF (set_all st r g b w).1 = true)
    ∧ (∀ (st : LightState) (c : Color) (d : Option ℚ),
        lightWF st = true → lightWF (fade_to st c d).1 = true)
    ∧ (∀ (st : LightState) (n : String) (d : Option ℚ),
        lightWF st = true → lightWF (set_recipe_by_name st n d).2.1 = true)
    ∧ (∀ (st : LightState) (i : ℕ) (d : Option ℚ),
        lightWF st = true → lightWF (set_recipe_by_index st i d).2.1 = true)
    ∧ (∀ (st : LightState) (r g b w : ℤ) (d : Option ℚ),
        lightWF st = true → lightWF (set_custom_rgbw st r g b w d).2.1 = true)
    ∧ (∀ st : LightState, lightWF st = true →
        (get_current_rgbw st).2 = st ∧ lightWF (get_current_rgbw st).2 = true)
    ∧ (∀ st : LightState, st.current_recipe_tuple = none →
        (get_current_rgbw st).1 = (0, 0, 0, 0)
        ∧ (get_current_rgbw st).2.current_recipe_tuple = some (0, 0, 0, 0)
        ∧ (get_current_rgbw st).2.current_recipe_name = "off"
        ∧ lightWF (get_current_rgbw st).2 = true) := by
  refine ⟨by decide, fun st r g b w h => set_all_wf st r g b w h,
    fun st c d h => fade_to_wf st c d h,
    fun st n d h => set_recipe_by_name_wf st n d h,
    fun st i d h => set_recipe_by_index_wf st i d h,
    fun st r g b w d h => set_custom_rgbw_wf st r g b w d h,
    fun st h => get_current_rgbw_wf st h, ?_⟩
  intro st h
  unfold get_current_rgbw
  rw [h]
  dsimp only
  refine ⟨by decide, by decide, rfl, ?_⟩
  unfold lightWF
  dsimp only
  decide

/-- Witness for light_controller_invariant at concrete states. -/
theorem light_controller_invariant_witness :
    lightWF lightInit = true
    ∧ lightWF (set_all lightInit 300 (-10) 255 256).1 = true
    ∧ lightWF (fade_to lightInit (1, 2, 3, 4) none).1 = true
    ∧ lightWF (set_recipe_by_name lightInit "warm" none).2.1 = true
    ∧ lightWF (set_recipe_by_index lightInit 99 none).2.1 = true
    ∧ lightWF (set_custom_rgbw lightInit 5 6 7 8 none).2.1 = true
    ∧ (get_current_rgbw lightInit).2 = lightInit
    ∧ (get_current_rgbw ⟨none, "balanced", false⟩).1 = (0, 0, 0, 0) :=
  ⟨light_controller_invariant.1,
   light_controller_invariant.2.1 lightInit 300 (-10) 255 256 light_controller_invariant.1,
   light_controller_invariant.2.2.1 lightInit (1, 2, 3, 4) none light_controller_invariant.1,
   light_controller_invariant.2.2.2.1 lightInit "warm" none light_controller_invariant.1,
   light_controller_invariant.2.2.2.2.1 lightInit 99 none light_controller_invariant.1,
   light_controller_invariant.2.2.2.2.2.1 lightInit 5 6 7 8 none light_controller_invariant.1,
   (light_controller_invariant.2.2.2.2.2.2.1 lightInit light_controller_invariant.1).1,
   (light_controller_invariant.2.2.2.2.2.2.2 ⟨none, "balanced", false⟩ rfl).1⟩

/-! ### The fade interpolation formula (claim C4) -/

/-- The per-channel interpolation value as the specification words it:
round half up of start + (target - start) * i / steps, clamped to 0..255. -/
def specFadeChan (s t : ℤ) (n i : ℕ) : ℤ :=
  clampChan ⌊(s : ℚ) + ((t : ℚ) - (s : ℚ)) * (i : ℚ) / (n : ℚ) + 1 / 2⌋

/-- The specification formula on all four channels. -/
def specFadeColor (s t : Color) (n i : ℕ) : Color :=
  (specFadeChan s.1 t.1 n i, specFadeChan s.2.1 t.2.1 n i,
   specFadeChan s.2.2.1 t.2.2.1 n i, specFadeChan s.2.2.2 t.2.2.2 n i)

lemma pyTrunc_of_nonneg {q : ℚ} (h : 0 ≤ q) : pyTrunc q = ⌊q⌋ := by
  unfold pyTrunc
  rw [if_neg (not_lt.mpr h)]

lemma clampChan_pyTrunc (q : ℚ) : clampChan (pyTrunc q) = clampChan ⌊q⌋ := by
  unfold pyTrunc
  split_ifs with h
  · have h1 : ⌈q⌉ ≤ 0 := Int.ceil_le.mpr (by exact_mod_cast h.le)
    have h2 : ⌊q⌋ ≤ 0 := Int.floor_nonpos h.le
    unfold clampChan
    omega
  · rfl

lemma fadeChan_eq_spec (s t : ℤ) (n i : ℕ) : fadeChan s t n i = specFadeChan s t n i := by
  unfold fadeChan specFadeChan
  dsimp only
  rw [clampChan_pyTrunc]
  have harg : (s : ℚ) + ((t : ℚ) - (s : ℚ)) / (n : ℚ) * (i : ℚ) + 1 / 2
      = (s : ℚ) + ((t : ℚ) - (s : ℚ)) * (i : ℚ) / (n : ℚ) + 1 / 2 := by
    ring
  rw [harg]

lemma fadeColor_eq_spec (s t : Color) (n i : ℕ) :
    fadeColor s t n i = specFadeColor s t n i := by
  unfold fadeColor specFadeColor
  rw [fadeChan_eq_spec, fadeChan_eq_spec, fadeChan_eq_spec, fadeChan_eq_spec]

lemma specFadeChan_last (s t : ℤ) (n : ℕ) (hn : n ≠ 0) (h0 : 0 ≤ t) (h1 : t ≤ 255) :
    specFadeChan s t n n = t := by
  unfold specFadeChan
  have hnq : (n : ℚ) ≠ 0 := Nat.cast_ne_zero.mpr hn
  have harg : (s : ℚ) + ((t : ℚ) - (s : ℚ)) * (n : ℚ) / (n : ℚ) + 1 / 2
      = (t : ℚ) + 1 / 2 := by
    field_simp
  rw [harg]
  have hfl : ⌊(t : ℚ) + 1 / 2⌋ = t := by
    rw [add_comm, Int.floor_add_int]
    norm_num
  rw [hfl]
  exact clampChan_eq_self h0 h1

lemma specFadeColor_last (s t : Color) (n : ℕ) (hn : n ≠ 0) (ht : colorOK t = true) :
    specFadeColor s t n n = t := by
  unfold colorOK chanOK at ht
  simp only [Bool.and_eq_true, decide_eq_true_iff] at ht
  obtain ⟨⟨⟨h1, h2⟩, h3⟩, h4⟩ := ht
  unfold specFadeColor
  rw [specFadeChan_last _ _ _ hn h1.1 h1.2, specFadeChan_last _ _ _ hn h2.1 h2.2,
      specFadeChan_last _ _ _ hn h3.1 h3.2, specFadeChan_last _ _ _ hn h4.1 h4.2]

/-- C4: in the genuine fade branch (start differs from the clamped target and
the duration is at or above the 0.05 s instant threshold), fade_to computes
steps = max(1, floor(duration * steps_per_second)) with steps_per_second=25,
commits for each step i in 0..steps the color whose channels are
round(start + (target - start) * i / steps) clamped to 0..255 (followed by the
final set_all commit of the exact clamped target), ends with the cached color
equal to the exact clamped target, and sleeps the ms-quantized duration/steps
between non-final steps. -/
theorem fade_to_interpolation (st : LightState) (c target : Color) (dur : ℚ)
    (hcur : st.current_recipe_tuple = some c)
    (hne : clamp4 target ≠ c)
    (hd : 1 / 20 ≤ dur) :
    (fade_to st target (some dur)).2.1 =
      (List.range (max 1 (⌊dur * 25⌋).toNat + 1)).map
        (fun i => specFadeColor c (clamp4 target) (max 1 (⌊dur * 25⌋).toNat) i)
      ++ [clamp4 target]
    ∧ specFadeColor c (clamp4 target) (max 1 (⌊dur * 25⌋).toNat)
        (max 1 (⌊dur * 25⌋).toNat) = clamp4 target
    ∧ (fade_to st target (some dur)).1.current_recipe_tuple = some (clamp4 target)
    ∧ (fade_to st target (some dur)).2.2 =
        List.replicate (max 1 (⌊dur * 25⌋).toNat)
          (max 1 (⌊dur / ((max 1 (⌊dur * 25⌋).toNat : ℕ) : ℚ) * 1000⌋).toNat) := by
  have hdpos : (0 : ℚ) < dur := lt_of_lt_of_le (by norm_num) hd
  have hcast : ((FADE_STEPS_PER_SECOND : ℕ) : ℚ) = 25 := by
    norm_num [FADE_STEPS_PER_SECOND]
  have htr : pyTrunc (dur * ((FADE_STEPS_PER_SECOND : ℕ) : ℚ)) = ⌊dur * 25⌋ := by
    rw [hcast]
    exact pyTrunc_of_nonneg (by positivity)
  have hms : pyTrunc (dur / ((max 1 (⌊dur * 25⌋).toNat : ℕ) : ℚ) * 1000)
      = ⌊dur / ((max 1 (⌊dur * 25⌋).toNat : ℕ) : ℚ) * 1000⌋ := by
    refine pyTrunc_of_nonneg ?_
    have hn : (0 : ℚ) ≤ ((max 1 (⌊dur * 25⌋).toNat : ℕ) : ℚ) := Nat.cast_nonneg _
    exact mul_nonneg (div_nonneg hdpos.le hn) (by norm_num)
  have hmain := fade_to_current st target (some dur)
  have hwrites : (set_all st (clamp4 target).1 (clamp4 target).2.1 (clamp4 target).2.2.1
      (clamp4 target).2.2.2).2 = [clamp4 target] := by
    have hne2 : st.current_recipe_tuple ≠
        some (clamp4 ((clamp4 target).1, (clamp4 target).2.1, (clamp4 target).2.2.1,
          (clamp4 target).2.2.2)) := by
      show st.current_recipe_tuple ≠ some (clamp4 (clamp4 target))
      rw [clamp4_idem target, hcur]
      intro hx
      exact hne (Option.some.inj hx).symm
    rw [set_all_writes_of_ne st (clamp4 target).1 (clamp4 target).2.1 (clamp4 target).2.2.1
      (clamp4 target).2.2.2 hne2]
    show [clamp4 (clamp4 target)] = [clamp4 target]
    rw [clamp4_idem]
  constructor
  case right =>
    refine ⟨?_, hmain, ?_⟩
    · exact specFadeColor_last c (clamp4 target) _ (by omega) (clamp4_colorOK target)
    · unfold fade_to
      rw [get_current_rgbw_of_some hcur]
      dsimp only [Option.getD]
      rw [if_neg (Ne.symm hne), if_neg (not_lt.mpr hd), htr, hms]
  case left =>
    unfold fade_to
    rw [get_current_rgbw_of_some hcur]
    dsimp only [Option.getD]
    rw [if_neg (Ne.symm hne), if_neg (not_lt.mpr hd), htr, hwrites]
    simp only [fadeColor_eq_spec]

/-- Witness for fade_to_interpolation at a concrete one-step fade. -/
theorem fade_to_interpolation_witness :
    (⟨some (0, 0, 0, 0), "off", true⟩ : LightState).current_recipe_tuple = some (0, 0, 0, 0)
    ∧ clamp4 (255, 0, 0, 0) ≠ ((0, 0, 0, 0) : Color)
    ∧ (1 : ℚ) / 20 ≤ 1 / 20
    ∧ (fade_to ⟨some (0, 0, 0, 0), "off", true⟩ (255, 0, 0, 0) (some (1 / 20))).2.1 =
        (List.range (max 1 (⌊(1 / 20 : ℚ) * 25⌋).toNat + 1)).map
          (fun i => specFadeColor (0, 0, 0, 0) (clamp4 (255, 0, 0, 0))
            (max 1 (⌊(1 / 20 : ℚ) * 25⌋).toNat) i)
        ++ [clamp4 (255, 0, 0, 0)] :=
  ⟨rfl, by decide, le_refl _,
   (fade_to_interpolation ⟨some (0, 0, 0, 0), "off", true⟩ (0, 0, 0, 0) (255, 0, 0, 0)
      (1 / 20) rfl (by decide) (le_refl _)).1⟩

/-! ### BluetoothController (src/main.py lines 534-984) -/

/-- Notification code NTF_ACK_COMMAND_RECEIVED. -/
def NTF_ACK_COMMAND_RECEIVED : ℕ := 100

/-- Notification code NTF_ERROR_INVALID_COMMAND. -/
def NTF_ERROR_INVALID_COMMAND : ℕ := 101

/-- Notification code NTF_AUTO_CYCLE_DISABLED. -/
def NTF_AUTO_CYCLE_DISABLED : ℕ := 103

/-- BluetoothController._handle_recipe_write: read the characteristic value;
for a 1-byte value, disable auto-cycle if it was enabled (with a
disabled notification), call set_recipe_by_index, and send an ack or an
invalid-command notification depending on its result; any other value sends
an invalid-command notification.  Returns the new light state, the sent
notification codes in order, and the actuator writes performed. -/
def handle_recipe_write (st : LightState) (val : List ℕ) :
    LightState × List ℕ × List Color :=
  match val with
  | [idx] =>
      let pre := if st.auto_cycle_enabled then
          ((toggle_auto_cycle st).2, [NTF_AUTO_CYCLE_DISABLED])
        else (st, ([] : List ℕ))
      let q := set_recipe_by_index pre.1 idx none
      (q.2.1,
       pre.2 ++ [if q.1 then NTF_ACK_COMMAND_RECEIVED else NTF_ERROR_INVALID_COMMAND],
       q.2.2.1)
  | _ => (st, [NTF_ERROR_INVALID_COMMAND], [])

lemma handle_recipe_write_single_false (st : LightState) (idx : ℕ)
    (hauto : st.auto_cycle_enabled = false) :
    handle_recipe_write st [idx] =
      ((set_recipe_by_index st idx none).2.1,
       [if (set_recipe_by_index st idx none).1 then NTF_ACK_COMMAND_RECEIVED
        else NTF_ERROR_INVALID_COMMAND],
       (set_recipe_by_index st idx none).2.2.1) := by
  unfold handle_recipe_write
  rw [if_neg (show ¬ st.auto_cycle_enabled = true by simp [hauto])]
  rfl

lemma handle_recipe_write_single_true (st : LightState) (idx : ℕ)
    (hauto : st.auto_cycle_enabled = true) :
    handle_recipe_write st [idx] =
      ((set_recipe_by_index (toggle_auto_cycle st).2 idx none).2.1,
       NTF_AUTO_CYCLE_DISABLED ::
         [if (set_recipe_by_index (toggle_auto_cycle st).2 idx none).1
          then NTF_ACK_COMMAND_RECEIVED else NTF_ERROR_INVALID_COMMAND],
       (set_recipe_by_index (toggle_auto_cycle st).2 idx none).2.2.1) := by
  unfold handle_recipe_write
  rw [if_pos hauto]
  rfl

/-- C2 counterexample: a recipe-select write with the out-of-range 1-byte
index 16 (the key list has 16 entries, indices 0..15) does send the
invalid-command notification, but it does not leave the light state
unchanged: from the balanced color the cached current color changes. -/
theorem handle_recipe_write_counterexample :
    NTF_ERROR_INVALID_COMMAND ∈
      (handle_recipe_write ⟨some (255, 64, 128, 255), "balanced", false⟩ [16]).2.1
    ∧ (handle_recipe_write ⟨some (255, 64, 128, 255), "balanced", false⟩
        [16]).1.current_recipe_tuple ≠ some (255, 64, 128, 255) := by
  constructor
  · decide
  · rw [handle_recipe_write_single_false _ 16 rfl]
    dsimp only
    rw [show set_recipe_by_index (⟨some (255, 64, 128, 255), "balanced", false⟩ : LightState)
          16 none
        = (false, fade_to ⟨some (255, 64, 128, 255), "balanced", false⟩
            ((LIGHT_RECIPES.lookup "off").getD (0, 0, 0, 0)) none) from by
      unfold set_recipe_by_index
      rw [dif_neg (by decide)]]
    dsimp only
    rw [fade_to_current]
    decide

/-- C2 amended: for every recipe-select write whose 1-byte index is out of
range, the handler sends an invalid-command notification, but the light is
faded to the off recipe rather than left unchanged: the cached current color
afterwards is (0, 0, 0, 0) (so the state is unchanged only when the light was
already at the off color), and auto-cycle ends up disabled. -/
theorem handle_recipe_write_out_of_range (st : LightState) (idx : ℕ)
    (h1 : RECIPE_KEYS.length ≤ idx) (hbyte : idx < 256) :
    NTF_ERROR_INVALID_COMMAND ∈ (handle_recipe_write st [idx]).2.1
    ∧ (handle_recipe_write st [idx]).1.current_recipe_tuple = some (0, 0, 0, 0)
    ∧ (handle_recipe_write st [idx]).1.auto_cycle_enabled = false := by
  have hidx : ¬ idx < RECIPE_KEYS.length := not_lt.mpr h1
  have hq : ∀ st1 : LightState, set_recipe_by_index st1 idx none =
      (false, fade_to st1 ((LIGHT_RECIPES.lookup "off").getD (0, 0, 0, 0)) none) := by
    intro st1
    unfold set_recipe_by_index
    rw [dif_neg hidx]
  have hclamp : clamp4 ((LIGHT_RECIPES.lookup "off").getD (0, 0, 0, 0))
      = ((0, 0, 0, 0) : Color) := by decide
  cases hauto : st.auto_cycle_enabled
  case false =>
    rw [handle_recipe_write_single_false st idx hauto, hq]
    dsimp only
    refine ⟨by simp [NTF_ERROR_INVALID_COMMAND, NTF_ACK_COMMAND_RECEIVED], ?_, ?_⟩
    · rw [fade_to_current, hclamp]
    · rw [fade_to_auto]
      exact hauto
  case true =>
    rw [handle_recipe_write_single_true st idx hauto, hq]
    dsimp only
    refine ⟨by simp [NTF_ERROR_INVALID_COMMAND, NTF_ACK_COMMAND_RECEIVED], ?_, ?_⟩
    · rw [fade_to_current, hclamp]
    · rw [fade_to_auto]
      simp [toggle_auto_cycle, hauto]

/-- Witness for handle_recipe_write_out_of_range at the boot state and
index 16. -/
theorem handle_recipe_write_out_of_range_witness :
    RECIPE_KEYS.length ≤ 16 ∧ (16 : ℕ) < 256
    ∧ NTF_ERROR_INVALID_COMMAND ∈ (handle_recipe_write lightInit [16]).2.1
    ∧ (handle_recipe_write lightInit [16]).1.current_recipe_tuple = some (0, 0, 0, 0) :=
  ⟨by decide, by decide,
   (handle_recipe_write_out_of_range lightInit 16 (by decide) (by decide)).1,
   (handle_recipe_write_out_of_range lightInit 16 (by decide) (by decide)).2.1⟩

/-! ### Connection state and advertising (src/main.py lines 661-765, 958-984,
1156-1178) -/

/-- The connection-related mutable fields of BluetoothController together
with the module-level ble_needs_restart flag. -/
structure BTState where
  connected : Bool
  conn_handle : Option ℕ
  ble_needs_restart : Bool
deriving DecidableEq, Repr

/-- The radio calls _start_advertising can make. -/
inductive RadioCall where
  | stopAdv
  | startAdv
deriving DecidableEq, Repr

/-- Outcome oracle for the gap_advertise call: success, MemoryError, or any
other exception. -/
inductive AdvOutcome where
  | ok
  | memError
  | otherError
deriving DecidableEq, Repr

/-- BluetoothController._start_advertising: after gc.collect, if free memory
is below config.MIN_MEM_ADV the attempt is skipped with no radio call and the
restart flag left set; otherwise the previous advertising is stopped and
gap_advertise is attempted, clearing the flag on success and setting it on
MemoryError or any other exception.  Returns the resulting
ble_needs_restart flag and the radio calls performed. -/
def start_advertising (mem_free : ℕ) (adv : AdvOutcome) : Bool × List RadioCall :=
  if mem_free < MIN_MEM_ADV then (true, [])
  else
    match adv with
    | .ok => (false, [.stopAdv, .startAdv])
    | .memError => (true, [.stopAdv, .startAdv])
    | .otherError => (true, [.stopAdv, .startAdv])

/-- The advertising-restart check of the main loop (step 4 of main): when the
flag is set and the controller is not connected, clear the flag and call
_start_advertising (which re-sets the flag on failure); when connected, just
clear a stray flag; otherwise do nothing. -/
def main_loop_restart_check (st : BTState) (mem_free : ℕ) (adv : AdvOutcome) :
    BTState × List RadioCall :=
  if st.ble_needs_restart then
    if st.connected then ({ st with ble_needs_restart := false }, [])
    else
      let q := start_advertising mem_free adv
      ({ st with ble_needs_restart := q.1 }, q.2)
  else (st, [])

/-- C3: _start_advertising is gated on free memory: below the MIN_MEM_ADV
floor it performs no radio call and returns with ble_needs_restart set; at or
above the floor the attempt proceeds, and on success the flag is cleared; the
periodic main-loop task performs radio calls only while the flag is set and
the controller is disconnected, where it runs the gated attempt. -/
theorem start_advertising_memory_gate :
    (∀ (mem : ℕ) (adv : AdvOutcome), mem < MIN_MEM_ADV →
      start_advertising mem adv = (true, []))
    ∧ (∀ mem : ℕ, MIN_MEM_ADV ≤ mem →
      start_advertising mem .ok = (false, [.stopAdv, .startAdv])
      ∧ RadioCall.startAdv ∈ (start_advertising mem .ok).2)
    ∧ (∀ (st : BTState) (mem : ℕ) (adv : AdvOutcome), st.connected = true →
      (main_loop_restart_check st mem adv).2 = []
      ∧ (main_loop_restart_check st mem adv).1.ble_needs_restart = false
        ∨ (main_loop_restart_check st mem adv).1 = st ∧ st.ble_needs_restart = false)
    ∧ (∀ (st : BTState) (mem : ℕ) (adv : AdvOutcome),
      st.ble_needs_restart = true → st.connected = false →
      main_loop_restart_check st mem adv =
        ({ st with ble_needs_restart := (start_advertising mem adv).1 },
         (start_advertising mem adv).2)) := by
  refine ⟨?_, ?_, ?_, ?_⟩
  · intro mem adv h
    unfold start_advertising
    rw [if_pos h]
  · intro mem h
    have hng : ¬ mem < MIN_MEM_ADV := not_lt.mpr h
    constructor
    · unfold start_advertising
      rw [if_neg hng]
    · unfold start_advertising
      rw [if_neg hng]
      simp
  · intro st mem adv hc
    unfold main_loop_restart_check
    cases hf : st.ble_needs_restart
    · rw [if_neg (by simp [hf])]
      exact Or.inr ⟨rfl, rfl⟩
    · rw [if_pos (by simp [hf]), if_pos (by simp [hc])]
      exact Or.inl ⟨rfl, rfl⟩
  · intro st mem adv hf hc
    unfold main_loop_restart_check
    rw [if_pos (by simp [hf]), if_neg (by simp [hc])]

/-- Witness for start_advertising_memory_gate at concrete memory levels. -/
theorem start_advertising_memory_gate_witness :
    start_advertising 14999 .memError = (true, [])
    ∧ start_advertising 15000 .ok = (false, [.stopAdv, .startAdv])
    ∧ main_loop_restart_check ⟨false, none, true⟩ 20000 .ok =
        (⟨false, none, false⟩, [.stopAdv, .startAdv]) :=
  ⟨start_advertising_memory_gate.1 14999 .memError (by decide),
   (start_advertising_memory_gate.2.1 15000 (by decide)).1,
   by rw [start_advertising_memory_gate.2.2.2 ⟨false, none, true⟩ 20000 .ok rfl rfl]
      rw [(start_advertising_memory_gate.2.1 20000 (by decide)).1]⟩

/-- BluetoothController.__init__ connection fields: not connected, no
handle; the flag component is whatever _start_advertising left (the handle
and connected flag are set before advertising is attempted). -/
def bt_init (flag : Bool) : BTState :=
  { connected := false, conn_handle := none, ble_needs_restart := flag }

/-- _IRQ_CENTRAL_CONNECT in _irq_handler: record the handle, set connected,
clear the restart flag. -/
def on_central_connect (st : BTState) (h : ℕ) : BTState :=
  { st with connected := true, conn_handle := some h, ble_needs_restart := false }

/-- _IRQ_CENTRAL_DISCONNECT in _irq_handler: when the event handle matches
the recorded one (or none is recorded), clear connected and the handle and
request an advertising restart; otherwise ignore the event. -/
def on_central_disconnect (st : BTState) (h : ℕ) : BTState :=
  if st.conn_handle = some h ∨ st.conn_handle = none then
    { st with connected := false, conn_handle := none, ble_needs_restart := true }
  else st

/-- BluetoothController._handle_ble_os_error: on an OSError whose code is in
the disconnect list while connected, force the disconnected state (clearing
connected and the handle in the same step) and request a restart. -/
def handle_ble_os_error (st : BTState) (code : ℕ) : BTState :=
  if code ∈ [10, 11, 19, 104, 128] ∧ st.connected = true then
    { st with connected := false, conn_handle := none, ble_needs_restart := true }
  else st

/-- BluetoothController.cleanup: after disconnecting and stopping the radio,
clear connected and the handle. -/
def bt_cleanup (st : BTState) : BTState :=
  { st with connected := false, conn_handle := none }

/-- The C10 invariant: the connected flag is true exactly when a connection
handle is recorded. -/
def btInv (st : BTState) : Prop := st.connected = true ↔ st.conn_handle.isSome = true

/-- C10: every BluetoothController connection transition (construction,
connect event, disconnect event, forced disconnect on a transport OS error,
cleanup) preserves the invariant that the connected flag is true if and only
if the connection handle is present; each transition that clears one clears
the other in the same step. -/
theorem bt_connection_invariant :
    (∀ flag : Bool, btInv (bt_init flag))
    ∧ (∀ (st : BTState) (h : ℕ), btInv (on_central_connect st h))
    ∧ (∀ (st : BTState) (h : ℕ), btInv st → btInv (on_central_disconnect st h))
    ∧ (∀ (st : BTState) (code : ℕ), btInv st → btInv (handle_ble_os_error st code))
    ∧ (∀ st : BTState, btInv (bt_cleanup st)) := by
  refine ⟨fun flag => by simp [btInv, bt_init],
    fun st h => by simp [btInv, on_central_connect], ?_, ?_,
    fun st => by simp [btInv, bt_cleanup]⟩
  · intro st h hinv
    unfold on_central_disconnect
    split_ifs with hc
    · simp [btInv]
    · exact hinv
  · intro st code hinv
    unfold handle_ble_os_error
    split_ifs with hc
    · simp [btInv]
    · exact hinv

/-- Witness for bt_connection_invariant at concrete states. -/
theorem bt_connection_invariant_witness :
    btInv (bt_init true)
    ∧ btInv (on_central_connect (bt_init true) 64)
    ∧ btInv (on_central_disconnect (on_central_connect (bt_init true) 64) 64)
    ∧ btInv (handle_ble_os_error (on_central_connect (bt_init true) 64) 104)
    ∧ btInv (bt_cleanup (on_central_connect (bt_init true) 64)) :=
  ⟨bt_connection_invariant.1 true,
   bt_connection_invariant.2.1 (bt_init true) 64,
   bt_connection_invariant.2.2.1 (on_central_connect (bt_init true) 64) 64
     (bt_connection_invariant.2.1 (bt_init true) 64),
   bt_connection_invariant.2.2.2.1 (on_central_connect (bt_init true) 64) 104
     (bt_connection_invariant.2.1 (bt_init true) 64),
   bt_connection_invariant.2.2.2.2 (on_central_connect (bt_init true) 64)⟩

/-! ### Settings persistence (src/main.py lines 188-301) -/

/-- The whitespace characters Python str.strip removes (ASCII range; the
persisted settings file only contains ASCII). -/
def pyWhitespace (c : Char) : Bool :=
  c == ' ' || c == '\t' || c == '\n' || c == '\r' || c == '\x0b' || c == '\x0c'

/-- Strip leading and trailing whitespace from a character list, as Python
str.strip() does. -/
def pyStripChars (cs : List Char) : List Char :=
  ((cs.dropWhile pyWhitespace).reverse.dropWhile pyWhitespace).reverse

/-- Python str.strip(). -/
def pyStrip (s : String) : String := String.mk (pyStripChars s.toList)

/-- Python str.split(sep) for a single-character separator: the groups of
characters between occurrences of the separator (an empty string yields one
empty group, matching Python). -/
def splitOnChar (sep : Char) : List Char → List (List Char)
  | [] => [[]]
  | c :: rest =>
      match splitOnChar sep rest with
      | [] => if c = sep then [[], []] else [[c]]
      | g :: gs => if c = sep then [] :: g :: gs else (c :: g) :: gs

/-- Decimal value of a digit list. -/
def digitsToNat (cs : List Char) : ℕ :=
  cs.foldl (fun acc c => acc * 10 + (c.toNat - 48)) 0

/-- A nonempty all-digit character list, as Python int() accepts after sign
handling. -/
def pyDigits (cs : List Char) : Option ℕ :=
  if cs ≠ [] ∧ cs.all Char.isDigit = true then some (digitsToNat cs) else none

/-- Python int() on a string: strip surrounding whitespace, optional sign,
then a nonempty run of decimal digits; `none` models the ValueError raised
otherwise.  (Underscore digit grouping and non-ASCII digits never occur in
the two-character fields this parser receives and are not modelled.) -/
def pyIntOfChars (cs : List Char) : Option ℤ :=
  match pyStripChars cs with
  | [] => none
  | '+' :: rest => (pyDigits rest).map (fun n => (n : ℤ))
  | '-' :: rest => (pyDigits rest).map (fun n => -(n : ℤ))
  | ds => (pyDigits ds).map (fun n => (n : ℤ))

/-- Source function validate_time_format: a 5-character string with a colon
at index 2 splitting on the colon into two int-parsable parts h and m with
0 ≤ h ≤ 23 and 0 ≤ m ≤ 59; a split that does not yield exactly two parts or
a part that fails int() is the caught ValueError, giving false. -/
def validate_time_format (s : String) : Bool :=
  if s.length = 5 ∧ s.toList.getD 2 ' ' = ':' then
    match splitOnChar ':' s.toList with
    | [hs, ms] =>
        match pyIntOfChars hs, pyIntOfChars ms with
        | some h, some m => decide (0 ≤ h ∧ h ≤ 23 ∧ 0 ≤ m ∧ m ≤ 59)
        | _, _ => false
    | _ => false
  else false

/-- The three in-memory schedule globals: current_on_time_str,
current_off_time_str, current_active_recipe_name. -/
structure Settings where
  on_time : String
  off_time : String
  active_recipe : String
deriving DecidableEq, Repr

/-- The compiled-in defaults from config.py. -/
def defaultSettings : Settings :=
  { on_time := LIGHTS_ON_TIME, off_time := LIGHTS_OFF_TIME,
    active_recipe := ACTIVE_RECIPE }

/-- Source function save_settings: validate both time strings, require the
recipe to exist in config.LIGHT_RECIPES and differ from the reserved name
off, then write the file (the Bool oracle `writeOk` stands for the write
succeeding; an exception leaves the globals untouched) and only then update
the in-memory globals.  Returns the success flag, the resulting in-memory
settings, and what was written to the settings file (`none` when nothing
was durably written). -/
def save_settings (st : Settings) (onT offT recipeName : String) (writeOk : Bool) :
    Bool × Settings × Option (String × String × String) :=
  if ¬ validate_time_format onT = true then (false, st, none)
  else if ¬ validate_time_format offT = true then (false, st, none)
  else if (LIGHT_RECIPES.lookup recipeName).isNone then (false, st, none)
  else if recipeName = "off" then (false, st, none)
  else if writeOk then
    (true, { on_time := onT, off_time := offT, active_recipe := recipeName },
     some (onT, offT, recipeName))
  else (false, st, none)

/-- C5: save_settings is atomic with respect to the in-memory view: either
every validation and the file write succeed, the in-memory settings become
exactly the saved values and true is returned, or it fails (invalid time
format, unknown recipe, the reserved name off, or a write error), returns
false, and the in-memory settings are unchanged. -/
theorem save_settings_atomic (st : Settings) (onT offT r : String) (w : Bool) :
    ((save_settings st onT offT r w).1 = true ↔
      (validate_time_format onT = true ∧ validate_time_format offT = true
        ∧ (LIGHT_RECIPES.lookup r).isSome = true ∧ r ≠ "off" ∧ w = true))
    ∧ ((save_settings st onT offT r w).1 = true →
        (save_settings st onT offT r w).2.1
          = { on_time := onT, off_time := offT, active_recipe := r }
        ∧ (save_settings st onT offT r w).2.2 = some (onT, offT, r))
    ∧ ((save_settings st onT offT r w).1 = false →
        (save_settings st onT offT r w).2.1 = st
        ∧ (save_settings st onT offT r w).2.2 = none) := by
  unfold save_settings
  cases hv1 : validate_time_format onT <;>
    cases hv2 : validate_time_format offT <;>
      cases hl : LIGHT_RECIPES.lookup r <;>
        by_cases hv4 : r = "off" <;>
          cases w <;>
            simp [hv1, hv2, hl, hv4]

/-- Witness for save_settings_atomic: a valid save updates memory, an
invalid one leaves it unchanged. -/
theorem save_settings_atomic_witness :
    (save_settings defaultSettings "11:00" "21:00" "warm" true).1 = true
    ∧ (save_settings defaultSettings "11:00" "21:00" "warm" true).2.1
        = { on_time := "11:00", off_time := "21:00", active_recipe := "warm" }
    ∧ (save_settings defaultSettings "25:99" "21:00" "warm" true).2.1 = defaultSettings :=
  ⟨by decide,
   ((save_settings_atomic defaultSettings "11:00" "21:00" "warm" true).2.1 (by decide)).1,
   ((save_settings_atomic defaultSettings "25:99" "21:00" "warm" true).2.2 (by decide)).1⟩

/-! ### load_settings (src/main.py lines 235-301) -/

/-- Python line.split(sep, 1) for a single-character separator, on the part
before the first occurrence and the part after it (only called when the
separator occurs). -/
def splitKV (cs : List Char) : List Char × List Char :=
  match cs with
  | [] => ([], [])
  | c :: rest =>
      if c = '=' then ([], rest)
      else
        let r := splitKV rest
        (c :: r.1, r.2)

/-- Python str.upper() on characters (the settings keys are ASCII). -/
def toUpperChars (cs : List Char) : List Char := cs.map Char.toUpper

/-- Python dict assignment on an association list: overwrite an existing key
or append a new binding. -/
def dictSet (d : List (String × String)) (k v : String) : List (String × String) :=
  if (d.lookup k).isSome then d.map (fun p => if p.1 = k then (k, v) else p)
  else d ++ [(k, v)]

/-- The line loop of load_settings: strip each line, skip blank lines,
comment lines and lines without an equals sign, split the rest at the first
equals sign into an uppercased stripped key and a stripped value, collected
into a dict. -/
def parseSettingsLines (lines : List String) : List (String × String) :=
  lines.foldl (fun d line =>
    let l := pyStripChars line.toList
    if l = [] ∨ l.head? = some '#' ∨ ¬ l.contains '=' then d
    else
      let kv := splitKV l
      dictSet d (String.mk (toUpperChars (pyStripChars kv.1)))
        (String.mk (pyStripChars kv.2))) []

/-- Python settings.get(key, default) on the parsed dict. -/
def settingsFileGet (lines : List String) (key dflt : String) : String :=
  ((parseSettingsLines lines).lookup key).getD dflt

/-- The state of the settings file as load_settings observes it: absent
(OSError ENOENT from os.stat), any other read failure (another OSError or any
other exception), or readable content given as the lines of the file. -/
inductive FileState where
  | missing
  | osError
  | content (lines : List String)

/-- Source function load_settings: for a missing file write the defaults via
save_settings and leave the defaults in memory (whether or not that save
succeeded); for any read failure fall back to the defaults; for readable
content take each field from the parsed dict, independently falling back to
its compiled-in default when absent or invalid (times must validate, the
recipe must exist and differ from the reserved name off).  Every exception
path of the source is one of these total branches, so the function never
raises.  Returns the in-memory settings and what was written to the file. -/
def load_settings (st : Settings) (fs : FileState) (writeOk : Bool) :
    Settings × Option (String × String × String) :=
  match fs with
  | .missing =>
      (defaultSettings,
       (save_settings st LIGHTS_ON_TIME LIGHTS_OFF_TIME ACTIVE_RECIPE writeOk).2.2)
  | .osError => (defaultSettings, none)
  | .content lines =>
      let loadedOn := settingsFileGet lines "ON_TIME" LIGHTS_ON_TIME
      let onT := if validate_time_format loadedOn then loadedOn else LIGHTS_ON_TIME
      let loadedOff := settingsFileGet lines "OFF_TIME" LIGHTS_OFF_TIME
      let offT := if validate_time_format loadedOff then loadedOff else LIGHTS_OFF_TIME
      let loadedRecipe := settingsFileGet lines "ACTIVE_RECIPE" ACTIVE_RECIPE
      let activeRecipe :=
        if (LIGHT_RECIPES.lookup loadedRecipe).isSome ∧ loadedRecipe ≠ "off"
        then loadedRecipe else ACTIVE_RECIPE
      ({ on_time := onT, off_time := offT, active_recipe := activeRecipe }, none)

/-- C6: load_settings is total over every file state (the source catches all
its exceptions) and always leaves well-formed in-memory settings: both times
validate and the active recipe is a known, non-off recipe; a read failure
falls back entirely to the compiled-in defaults, an invalid field falls back
to that field's default, and a missing file is rewritten with the defaults
(when the disk write itself succeeds). -/
theorem load_settings_robust (st : Settings) (fs : FileState) (w : Bool) :
    validate_time_format (load_settings st fs w).1.on_time = true
    ∧ validate_time_format (load_settings st fs w).1.off_time = true
    ∧ (LIGHT_RECIPES.lookup (load_settings st fs w).1.active_recipe).isSome = true
    ∧ (load_settings st fs w).1.active_recipe ≠ "off"
    ∧ (fs = .missing → (load_settings st fs w).1 = defaultSettings
        ∧ (w = true → (load_settings st fs w).2
            = some (LIGHTS_ON_TIME, LIGHTS_OFF_TIME, ACTIVE_RECIPE)))
    ∧ (fs = .osError → load_settings st fs w = (defaultSettings, none))
    ∧ (∀ lines, fs = .content lines →
        validate_time_format (settingsFileGet lines "ON_TIME" LIGHTS_ON_TIME) = false →
        (load_settings st fs w).1.on_time = LIGHTS_ON_TIME) := by
  cases fs with
  | missing =>
      refine ⟨rfl, rfl, rfl, (by decide : ("veg_growth" : String) ≠ "off"),
        fun _ => ⟨rfl, fun hw => ?_⟩, fun h => FileState.noConfusion h, fun lines h => FileState.noConfusion h⟩
      subst hw
      rfl
  | osError =>
      exact ⟨rfl, rfl, rfl, (by decide : ("veg_growth" : String) ≠ "off"),
        fun h => FileState.noConfusion h, fun _ => rfl, fun lines h => FileState.noConfusion h⟩
  | content lines =>
      refine ⟨?_, ?_, ?_, ?_, fun h => FileState.noConfusion h, fun h => FileState.noConfusion h, ?_⟩
      · show validate_time_format
          (if validate_time_format (settingsFileGet lines "ON_TIME" LIGHTS_ON_TIME)
           then settingsFileGet lines "ON_TIME" LIGHTS_ON_TIME else LIGHTS_ON_TIME) = true
        split_ifs with hv
        · exact hv
        · decide
      · show validate_time_format
          (if validate_time_format (settingsFileGet lines "OFF_TIME" LIGHTS_OFF_TIME)
           then settingsFileGet lines "OFF_TIME" LIGHTS_OFF_TIME else LIGHTS_OFF_TIME) = true
        split_ifs with hv
        · exact hv
        · decide
      · show (LIGHT_RECIPES.lookup
          (if (LIGHT_RECIPES.lookup (settingsFileGet lines "ACTIVE_RECIPE" ACTIVE_RECIPE)).isSome
              ∧ settingsFileGet lines "ACTIVE_RECIPE" ACTIVE_RECIPE ≠ "off"
           then settingsFileGet lines "ACTIVE_RECIPE" ACTIVE_RECIPE
           else ACTIVE_RECIPE)).isSome = true
        split_ifs with hv
        · exact hv.1
        · decide
      · show (if (LIGHT_RECIPES.lookup (settingsFileGet lines "ACTIVE_RECIPE" ACTIVE_RECIPE)).isSome
              ∧ settingsFileGet lines "ACTIVE_RECIPE" ACTIVE_RECIPE ≠ "off"
           then settingsFileGet lines "ACTIVE_RECIPE" ACTIVE_RECIPE
           else ACTIVE_RECIPE) ≠ "off"
        split_ifs with hv
        · exact hv.2
        · decide
      · intro lines2 h hvf
        injection h with h'
        subst h'
        show (if validate_time_format (settingsFileGet lines "ON_TIME" LIGHTS_ON_TIME)
           then settingsFileGet lines "ON_TIME" LIGHTS_ON_TIME else LIGHTS_ON_TIME)
          = LIGHTS_ON_TIME
        rw [if_neg (by simp [hvf])]

/-- Witness for load_settings_robust at concrete file states. -/
theorem load_settings_robust_witness :
    validate_time_format (load_settings defaultSettings .osError true).1.on_time = true
    ∧ load_settings defaultSettings .osError true = (defaultSettings, none)
    ∧ (load_settings defaultSettings .missing true).2
        = some (LIGHTS_ON_TIME, LIGHTS_OFF_TIME, ACTIVE_RECIPE)
    ∧ (load_settings defaultSettings (.content ["ON_TIME=99:99"]) true).1.on_time
        = LIGHTS_ON_TIME :=
  ⟨(load_settings_robust defaultSettings .osError true).1,
   (load_settings_robust defaultSettings .osError true).2.2.2.2.2.1 rfl,
   ((load_settings_robust defaultSettings .missing true).2.2.2.2.1 rfl).2 rfl,
   (load_settings_robust defaultSettings (.content ["ON_TIME=99:99"]) true).2.2.2.2.2.2
     ["ON_TIME=99:99"] rfl (by decide)⟩

end PicoLight
